import Mathlib

/-!
Verification development for the mt5-gateway service: a shallow embedding of
its connection lifecycle manager (src/app/mt5_connection.py), order validator
and close helpers (src/app/lib.py), error-envelope builders
(src/app/errors.py, src/app/decorators.py) and the order/position endpoints
(src/app/routes/order.py, src/app/routes/position.py).  Floating-point values
are modelled as rationals; the external MetaTrader5 library is modelled as an
environment of oracles (symbol lookup, ticks, positions, order_send).
-/

/-- External MetaTrader5 numeric code: ORDER_TYPE_BUY. -/
def ORDER_TYPE_BUY : Nat := 0

/-- External MetaTrader5 numeric code: ORDER_TYPE_SELL. -/
def ORDER_TYPE_SELL : Nat := 1

/-- External MetaTrader5 numeric code: ORDER_TYPE_BUY_LIMIT. -/
def ORDER_TYPE_BUY_LIMIT : Nat := 2

/-- External MetaTrader5 numeric code: ORDER_TYPE_SELL_LIMIT. -/
def ORDER_TYPE_SELL_LIMIT : Nat := 3

/-- External MetaTrader5 numeric code: ORDER_TYPE_BUY_STOP. -/
def ORDER_TYPE_BUY_STOP : Nat := 4

/-- External MetaTrader5 numeric code: ORDER_TYPE_SELL_STOP. -/
def ORDER_TYPE_SELL_STOP : Nat := 5

/-- External MetaTrader5 numeric code: ORDER_FILLING_FOK (value 0, which the
lib.py comment notes collides with the no-value sentinel on the venue side). -/
def ORDER_FILLING_FOK : Nat := 0

/-- External MetaTrader5 numeric code: ORDER_FILLING_IOC. -/
def ORDER_FILLING_IOC : Nat := 1

/-- External MetaTrader5 numeric code: ORDER_FILLING_RETURN. -/
def ORDER_FILLING_RETURN : Nat := 2

/-- Modelled from the spec: the repository imports TRADE_ACTION_DEAL from its
constants module, which is not under src/; it is the MetaTrader5 immediate
Deal action code. -/
def TRADE_ACTION_DEAL : Nat := 1

/-- Modelled from the spec: the repository imports TRADE_ACTION_PENDING from
its constants module, which is not under src/; it is the MetaTrader5 pending
action code. -/
def TRADE_ACTION_PENDING : Nat := 5

/-- External MetaTrader5 numeric code: TRADE_ACTION_SLTP. -/
def TRADE_ACTION_SLTP : Nat := 6

/-- External MetaTrader5 numeric code: TRADE_ACTION_MODIFY. -/
def TRADE_ACTION_MODIFY : Nat := 7

/-- External MetaTrader5 numeric code: TRADE_ACTION_REMOVE. -/
def TRADE_ACTION_REMOVE : Nat := 8

/-- External MetaTrader5 numeric code: ORDER_TIME_GTC. -/
def ORDER_TIME_GTC : Nat := 0

/-- External MetaTrader5 numeric code: TRADE_RETCODE_DONE. -/
def TRADE_RETCODE_DONE : Nat := 10009

/-- Modelled from the spec: the repository's constants module (imported by
src/app/lib.py and src/app/routes/order.py but not present under src/) maps
the venue's numeric order-type codes to the strings BUY, SELL, BUY_LIMIT,
SELL_LIMIT, BUY_STOP, SELL_STOP; it is the inverse of the ORDER_TYPE_MAP
literal in src/app/routes/order.py. -/
def ORDER_TYPE_TO_STRING (t : Nat) : Option String :=
  if t = ORDER_TYPE_BUY then some "BUY"
  else if t = ORDER_TYPE_SELL then some "SELL"
  else if t = ORDER_TYPE_BUY_LIMIT then some "BUY_LIMIT"
  else if t = ORDER_TYPE_SELL_LIMIT then some "SELL_LIMIT"
  else if t = ORDER_TYPE_BUY_STOP then some "BUY_STOP"
  else if t = ORDER_TYPE_SELL_STOP then some "SELL_STOP"
  else none

/-- Helper for strContains: does pat occur as a contiguous sublist? -/
def strContainsAux (pat : List Char) : List Char → Bool
  | [] => pat.isEmpty
  | c :: cs => (pat.isPrefixOf (c :: cs)) || strContainsAux pat cs

/-- Python substring containment (the expression pat in s), used by
validate_pending_price for the test BUY in type_str. -/
def strContains (s pat : String) : Bool := strContainsAux pat.data s.data

/-- Per-symbol trading constraints as returned by mt5.symbol_info. -/
structure SymbolInfo where
  volume_min : ℚ
  volume_max : ℚ
  volume_step : ℚ
  point : ℚ
  trade_freeze_level : ℚ
  filling_mode : Nat
deriving DecidableEq, Repr

/-- Current market quote as returned by mt5.symbol_info_tick. -/
structure Tick where
  bid : ℚ
  ask : ℚ
deriving DecidableEq, Repr

/-- Open-position snapshot as returned by mt5.positions_get. -/
structure Position where
  ticket : Nat
  symbol : String
  volume : ℚ
  type : Nat
  magic : Int
deriving DecidableEq, Repr

/-- Pending-order snapshot as returned by mt5.orders_get. -/
structure PendingOrderInfo where
  ticket : Nat
  symbol : String
  type : Nat
  price_open : ℚ
  sl : ℚ
  tp : ℚ
deriving DecidableEq, Repr

/-- Venue result object as returned by mt5.order_send. -/
structure MT5Result where
  retcode : Nat
  comment : String
  order : Nat
  deal : Nat
  price : ℚ
deriving DecidableEq, Repr

/-- MT5-specific error information embedded by mt5_error_response. -/
structure MT5ErrorInfo where
  retcode : Nat
  comment : String
  error_code : Int
  error_string : String
deriving DecidableEq, Repr

/-- JSON error envelope; an Option field models an optional JSON key. -/
structure Envelope where
  error : String
  error_type? : Option String := none
  details? : Option String := none
  operation? : Option String := none
  detail? : Option String := none
  mt5_status? : Option String := none
  mt5_error? : Option MT5ErrorInfo := none
  request_id? : Option String := none
deriving DecidableEq, Repr

/-- Venue-native trade request dictionary; an Option field models a key that a
given request may or may not carry. -/
structure TradeRequest where
  action : Nat
  symbol? : Option String := none
  volume? : Option ℚ := none
  type? : Option Nat := none
  position? : Option Nat := none
  order? : Option Nat := none
  price? : Option ℚ := none
  sl? : Option ℚ := none
  tp? : Option ℚ := none
  deviation? : Option Int := none
  magic? : Option Int := none
  comment? : Option String := none
  type_time? : Option Nat := none
  type_filling? : Option Nat := none
deriving DecidableEq, Repr

/-- The external venue and request context: each field is one MetaTrader5
call used by the endpoints, plus the request id from the middleware. -/
structure Env where
  request_id : Option String := none
  symbol_select : String → Bool
  symbol_info : String → Option SymbolInfo
  symbol_info_tick : String → Option Tick
  positions_get : Nat → Option (List Position)
  orders_get : Nat → Option (List PendingOrderInfo)
  order_send : TradeRequest → Option MT5Result
  last_error : Int × String

/-- HTTP-level outcome of a write endpoint: a success payload or a JSON error
envelope with its status code. -/
inductive HResp where
  | success (message : String) (result : MT5Result)
  | jsonError (body : Envelope) (status : Nat)
deriving DecidableEq, Repr

/-- Python round: round half to even, as used by validate_volume. -/
def pyRound (q : ℚ) : ℤ :=
  let f := ⌊q⌋
  let r := q - f
  if r < 1/2 then f
  else if 1/2 < r then f + 1
  else if f % 2 = 0 then f else f + 1

/-- lib.get_symbol_filling_mode: best supported filling mode from the
symbol's filling-capability bitmask; RETURN when symbol info is missing. -/
def get_symbol_filling_mode (symbol_info : Option SymbolInfo) : Nat :=
  match symbol_info with
  | none => ORDER_FILLING_RETURN
  | some si =>
    let filling_mode := si.filling_mode
    if filling_mode &&& 2 ≠ 0 then ORDER_FILLING_IOC
    else if filling_mode &&& 4 ≠ 0 then ORDER_FILLING_RETURN
    else if filling_mode &&& 1 ≠ 0 then ORDER_FILLING_FOK
    else ORDER_FILLING_RETURN

/-- lib.validate_volume: volume against the symbol constraints. -/
def validate_volume (symbol_info : Option SymbolInfo) (volume : ℚ) :
    Bool × Option String :=
  match symbol_info with
  | none => (false, some "Symbol info unavailable")
  | some si =>
    if volume < si.volume_min then (false, some "Volume below minimum")
    else if volume > si.volume_max then (false, some "Volume exceeds maximum")
    else
      let volume_step := si.volume_step
      if volume_step > 0 then
        let steps := pyRound ((volume - si.volume_min) / volume_step)
        let expected_volume := si.volume_min + steps * volume_step
        let epsilon := volume_step * (1/100)
        if |volume - expected_volume| > epsilon then
          (false, some "Volume must be in steps of volume_step")
        else (true, none)
      else (true, none)

/-- lib.validate_sl_tp: stop-loss and take-profit placement relative to the
order price and direction. -/
def validate_sl_tp (order_type : Nat) (price : ℚ) (sl tp : Option ℚ) :
    Bool × Option String :=
  let is_buy := order_type = ORDER_TYPE_BUY ∨ order_type = ORDER_TYPE_BUY_LIMIT
    ∨ order_type = ORDER_TYPE_BUY_STOP
  let slCheck : Option String :=
    match sl with
    | none => none
    | some s =>
      if s ≤ 0 then some "Stop loss must be positive"
      else if is_buy ∧ s ≥ price then some "For BUY orders, SL must be below entry price"
      else if ¬ is_buy ∧ s ≤ price then some "For SELL orders, SL must be above entry price"
      else none
  match slCheck with
  | some msg => (false, some msg)
  | none =>
    match tp with
    | none => (true, none)
    | some t =>
      if t ≤ 0 then (false, some "Take profit must be positive")
      else if is_buy ∧ t ≤ price then (false, some "For BUY orders, TP must be above entry price")
      else if ¬ is_buy ∧ t ≥ price then (false, some "For SELL orders, TP must be below entry price")
      else (true, none)

/-- lib.validate_pending_price: pending order price against current market
and the symbol's freeze level. -/
def validate_pending_price (order_type : Nat) (tick? : Option Tick)
    (symbol_info? : Option SymbolInfo) (price : ℚ) : Bool × Option String :=
  match tick? with
  | none => (false, some "Unable to get current price")
  | some tick =>
    match symbol_info? with
    | none => (false, some "Symbol info unavailable")
    | some si =>
      let freeze_level := si.trade_freeze_level * si.point
      let type_str := (ORDER_TYPE_TO_STRING order_type).getD ""
      let current_price := if strContains type_str "BUY" then tick.ask else tick.bid
      if |price - current_price| < freeze_level then
        (false, some "Price too close to market")
      else if order_type = ORDER_TYPE_BUY_LIMIT ∧ price ≥ tick.ask then
        (false, some "BUY_LIMIT price must be below current ask")
      else if order_type = ORDER_TYPE_SELL_LIMIT ∧ price ≤ tick.bid then
        (false, some "SELL_LIMIT price must be above current bid")
      else if order_type = ORDER_TYPE_BUY_STOP ∧ price ≤ tick.ask then
        (false, some "BUY_STOP price must be above current ask")
      else if order_type = ORDER_TYPE_SELL_STOP ∧ price ≥ tick.bid then
        (false, some "SELL_STOP price must be below current bid")
      else (true, none)

/-- errors.validation_error_response: envelope and 400 status. -/
def validation_error_response (message : String) (details : Option String)
    (request_id : Option String) : Envelope × Nat :=
  ({ error := message, error_type? := some "validation_error",
     details? := details, request_id? := request_id }, 400)

/-- errors.not_found_response: envelope and 404 status. -/
def not_found_response (resource : String) (identifier : Option String)
    (request_id : Option String) : Envelope × Nat :=
  let message :=
    match identifier with
    | some idf => resource.capitalize ++ " not found: " ++ idf
    | none => resource.capitalize ++ " not found"
  ({ error := message, error_type? := some "not_found",
     request_id? := request_id }, 404)

/-- errors.mt5_error_response: classifies a non-success venue result as a
connection error (503) or a rejection (400) from the last diagnostic code and
the result's return code. -/
def mt5_error_response (operation : String) (result : MT5Result)
    (last_error : Int × String) (request_id : Option String) : Envelope × Nat :=
  let error_code := last_error.1
  let error_str := last_error.2
  let is_connection_error :=
    error_code ∈ ([10004, 10005, 10006] : List Int) ∨
      result.retcode ∈ ([10018, 10019, 10020] : List Nat)
  let status_code := if is_connection_error then 503 else 400
  let error_type := if is_connection_error then "connection_error" else "mt5_rejected"
  ({ error := operation ++ " failed: " ++ result.comment,
     error_type? := some error_type,
     mt5_error? := some { retcode := result.retcode, comment := result.comment,
                          error_code := error_code, error_string := error_str },
     request_id? := request_id }, status_code)

/-- errors.internal_error_response: envelope and 500 status; carries error,
operation and detail keys but no error_type key. -/
def internal_error_response (operation : String) (exc : String)
    (request_id : Option String) : Envelope × Nat :=
  ({ error := "Internal server error", operation? := some operation,
     detail? := some exc, request_id? := request_id }, 500)

/-- Connection status of the lifecycle manager (mt5_connection.py). -/
inductive ConnectionStatus where
  | disconnected
  | connected
  | reconnecting
deriving DecidableEq, Repr

/-- String value of a ConnectionStatus, as in the Python enum. -/
def ConnectionStatus.value : ConnectionStatus → String
  | .disconnected => "disconnected"
  | .connected => "connected"
  | .reconnecting => "reconnecting"

/-- decorators.require_mt5_connection: the 503 envelope it returns when
ensure_connection fails; it carries error, detail and mt5_status keys but no
error_type key. -/
def require_mt5_connection_response (last_error : Option String)
    (status : ConnectionStatus) (request_id : Option String) : Envelope × Nat :=
  ({ error := "MT5 unavailable", detail? := last_error,
     mt5_status? := some status.value, request_id? := request_id }, 503)

/-- Observable state of the connection manager: status and last error. -/
structure ConnState where
  status : ConnectionStatus
  last_error : Option String
deriving DecidableEq, Repr

/-- MT5Connection._set_status: overwrites both the status and the last-error
field (the error argument defaults to none in the source). -/
def set_status (new_status : ConnectionStatus) (error : Option String) : ConnState :=
  { status := new_status, last_error := error }

/-- Outcome of one login attempt: the native handshake plus account-info probe
succeeded, or it failed (error path and exception path both record a
diagnostic and continue). -/
inductive AttemptOutcome where
  | success
  | failure (diag : String)
deriving DecidableEq, Repr

/-- Result of MT5Connection.initialize: returned flag, final state, the
blocking sleeps performed (in order), and how many login attempts ran. -/
structure InitResult where
  ok : Bool
  state : ConnState
  sleeps : List ℚ
  attempts : Nat
deriving DecidableEq, Repr

/-- Final diagnostic set by MT5Connection.initialize on exhausting all
attempts. -/
def initFinalError : String := "Failed to initialize MT5 after max attempts"

/-- Loop body of MT5Connection.initialize: attempt is the number of attempts
already made; outcomes gives the result of the k-th login attempt. -/
def init_go (maxAttempts : Nat) (base_delay : ℚ)
    (outcomes : Nat → AttemptOutcome) (attempt : Nat) (st : ConnState) :
    InitResult :=
  if _h : attempt < maxAttempts then
    let k := attempt + 1
    let _st1 := if 1 < k then set_status .reconnecting (some "Reconnection attempt") else st
    match outcomes k with
    | .success =>
      { ok := true, state := set_status .connected none, sleeps := [], attempts := 1 }
    | .failure diag =>
      let st2 := set_status .disconnected (some diag)
      if k < maxAttempts then
        let delay := base_delay * 2 ^ (k - 1)
        let rest := init_go maxAttempts base_delay outcomes k st2
        { ok := rest.ok, state := rest.state, sleeps := delay :: rest.sleeps,
          attempts := rest.attempts + 1 }
      else
        { ok := false, state := set_status .disconnected (some initFinalError),
          sleeps := [], attempts := 1 }
  else
    { ok := false, state := set_status .disconnected (some initFinalError),
      sleeps := [], attempts := 0 }
termination_by maxAttempts - attempt
decreasing_by omega

/-- MT5Connection.initialize: up to maxAttempts login attempts with
exponential backoff between consecutive attempts. -/
def initialize_mt5 (maxAttempts : Nat) (base_delay : ℚ)
    (outcomes : Nat → AttemptOutcome) (st : ConnState) : InitResult :=
  init_go maxAttempts base_delay outcomes 0 st

/-- Outcome of the account-info liveness probe inside ensure_connection. -/
inductive ProbeOutcome where
  | ok
  | empty
  | throws (msg : String)
deriving DecidableEq, Repr

/-- Result of MT5Connection.ensure_connection: returned flag, final state,
whether it fell through to the login loop, how many login attempts that loop
made, and the sleeps it performed. -/
structure EnsureResult where
  ok : Bool
  state : ConnState
  init_called : Bool
  init_attempts : Nat
  sleeps : List ℚ
deriving DecidableEq, Repr

/-- Packages an InitResult as the result of an ensure_connection call that
fell through to the login loop. -/
def ofInit (r : InitResult) : EnsureResult :=
  { ok := r.ok, state := r.state, init_called := true,
    init_attempts := r.attempts, sleeps := r.sleeps }

/-- MT5Connection.ensure_connection: cheap liveness probe when connected,
otherwise (or on probe failure) fall through to the login loop. -/
def ensure_connection (maxAttempts : Nat) (base_delay : ℚ)
    (outcomes : Nat → AttemptOutcome) (st : ConnState) (probe : ProbeOutcome) :
    EnsureResult :=
  if st.status = .connected then
    match probe with
    | .ok =>
      { ok := true, state := st, init_called := false, init_attempts := 0, sleeps := [] }
    | .empty =>
      let st1 := set_status .disconnected (some "Connection lost")
      ofInit ( initialize_mt5 maxAttempts base_delay outcomes st1)
    | .throws msg =>
      let st1 := set_status .disconnected (some msg)
      ofInit ( initialize_mt5 maxAttempts base_delay outcomes st1)
  else
    ofInit ( initialize_mt5 maxAttempts base_delay outcomes st)

/-- Inbound JSON body of the order-creation endpoint; an Option field models
a key that may be absent from the request. -/
structure OrderData where
  symbol? : Option String := none
  volume? : Option ℚ := none
  type? : Option String := none
  price? : Option ℚ := none
  sl? : Option ℚ := none
  tp? : Option ℚ := none
  deviation? : Option Int := none
  magic? : Option Int := none
  comment? : Option String := none
  type_filling? : Option Nat := none
deriving DecidableEq, Repr

/-- The ORDER_TYPE_MAP literal of routes/order.py. -/
def ORDER_TYPE_MAP (s : String) : Option Nat :=
  if s = "BUY" then some ORDER_TYPE_BUY
  else if s = "SELL" then some ORDER_TYPE_SELL
  else if s = "BUY_LIMIT" then some ORDER_TYPE_BUY_LIMIT
  else if s = "SELL_LIMIT" then some ORDER_TYPE_SELL_LIMIT
  else if s = "BUY_STOP" then some ORDER_TYPE_BUY_STOP
  else if s = "SELL_STOP" then some ORDER_TYPE_SELL_STOP
  else none

/-- The request_data dictionary built by send_market_order_endpoint. -/
def build_trade_request (action : Nat) (symbol : String) (volume : ℚ)
    (order_type : Nat) (price : ℚ) (data : OrderData) : TradeRequest :=
  { action := action
    symbol? := some symbol
    volume? := some volume
    type? := some order_type
    price? := some price
    deviation? := some (data.deviation?.getD 20)
    magic? := some (data.magic?.getD 0)
    comment? := some (data.comment?.getD "")
    type_time? := some ORDER_TIME_GTC
    type_filling? := some (data.type_filling?.getD ORDER_FILLING_IOC)
    sl? := data.sl?
    tp? := data.tp? }

/-- Final step of the order-creation endpoint before submission: the optional
SL/TP validation, then the request build. -/
def send_order_finish (env : Env) (data : OrderData) (symbol : String)
    (volume : ℚ) (order_type : Nat) (action : Nat) (price : ℚ) :
    Except (Envelope × Nat) TradeRequest :=
  if data.sl?.isSome ∨ data.tp?.isSome then
    match validate_sl_tp order_type price data.sl? data.tp? with
    | (false, msg) => .error (validation_error_response (msg.getD "") none env.request_id)
    | (true, _) => .ok (build_trade_request action symbol volume order_type price data)
  else .ok (build_trade_request action symbol volume order_type price data)

/-- Validation-and-build phase of send_market_order_endpoint
(routes/order.py): everything before mt5.order_send. -/
def send_order_build (env : Env) (data? : Option OrderData) :
    Except (Envelope × Nat) TradeRequest :=
  match data? with
  | none => .error (validation_error_response "Order data is required" none env.request_id)
  | some data =>
    match data.symbol?, data.volume?, data.type? with
    | some symbol, some volume, some tstr =>
      if env.symbol_select symbol = false then
        .error (validation_error_response "Symbol not found or not selectable" none env.request_id)
      else
        match ORDER_TYPE_MAP tstr.toUpper with
        | none => .error (validation_error_response "Invalid order type" none env.request_id)
        | some order_type =>
          if volume ≤ 0 then
            .error (validation_error_response "Volume must be positive" none env.request_id)
          else
            match validate_volume (env.symbol_info symbol) volume with
            | (false, msg) =>
              .error (validation_error_response (msg.getD "") none env.request_id)
            | (true, _) =>
              if order_type = ORDER_TYPE_BUY ∨ order_type = ORDER_TYPE_SELL then
                match env.symbol_info_tick symbol with
                | none =>
                  .error (validation_error_response "Failed to get symbol price" none env.request_id)
                | some tick =>
                  let price := if order_type = ORDER_TYPE_BUY then tick.ask else tick.bid
                  send_order_finish env data symbol volume order_type TRADE_ACTION_DEAL price
              else if order_type = ORDER_TYPE_BUY_LIMIT ∨ order_type = ORDER_TYPE_SELL_LIMIT
                  ∨ order_type = ORDER_TYPE_BUY_STOP ∨ order_type = ORDER_TYPE_SELL_STOP then
                match data.price? with
                | none =>
                  .error (validation_error_response "Price required for pending orders" none env.request_id)
                | some price =>
                  if price ≤ 0 then
                    .error (validation_error_response "Price must be positive" none env.request_id)
                  else
                    match validate_pending_price order_type (env.symbol_info_tick symbol)
                        (env.symbol_info symbol) price with
                    | (false, msg) =>
                      .error (validation_error_response (msg.getD "") none env.request_id)
                    | (true, _) =>
                      send_order_finish env data symbol volume order_type TRADE_ACTION_PENDING price
              else
                .error (validation_error_response "Invalid order type" none env.request_id)
    | _, _, _ =>
      .error (validation_error_response "Missing required fields" (some "symbol volume type") env.request_id)

/-- routes/order.py send_market_order_endpoint: build, submit, classify. -/
def send_market_order_endpoint (env : Env) (data? : Option OrderData) : HResp :=
  match send_order_build env data? with
  | .error e => .jsonError e.1 e.2
  | .ok req =>
    match env.order_send req with
    | none =>
      .jsonError (validation_error_response "Order execution failed - MT5 returned None" none env.request_id).1 400
    | some result =>
      if result.retcode ≠ TRADE_RETCODE_DONE then
        let e := mt5_error_response "Send order" result env.last_error env.request_id
        .jsonError e.1 e.2
      else
        let action_str := if req.action = TRADE_ACTION_DEAL then "executed" else "placed"
        .success ("Order " ++ action_str ++ " successfully") result

/-- lib.close_position, request-building half: resolves the live position by
ticket, the closing side and price, and the filling mode; none on any guard
failure. -/
def close_position_request (env : Env) (ticket : Nat) : Option TradeRequest :=
  match env.positions_get ticket with
  | none => none
  | some [] => none
  | some (actual_position :: _) =>
    let position_type := actual_position.type
    if position_type ≠ 0 ∧ position_type ≠ 1 then none
    else if env.symbol_select actual_position.symbol = false then none
    else
      match env.symbol_info_tick actual_position.symbol with
      | none => none
      | some tick =>
        let price := if position_type = 0 then tick.bid else tick.ask
        if price = 0 then none
        else
          let type_filling := get_symbol_filling_mode (env.symbol_info actual_position.symbol)
          some
            { action := TRADE_ACTION_DEAL
              position? := some ticket
              symbol? := some actual_position.symbol
              volume? := some actual_position.volume
              type? := some (if position_type = 0 then ORDER_TYPE_SELL else ORDER_TYPE_BUY)
              price? := some price
              deviation? := some 20
              magic? := some actual_position.magic
              comment? := some ""
              type_time? := some ORDER_TIME_GTC
              type_filling? := some type_filling }

/-- lib.close_position: called by the full-close endpoint with the default
deviation, magic and comment arguments; returns none when the position dict
has no ticket, when any lookup fails, when order_send returns none, and also
when the venue result carries a non-success return code. -/
def close_position (env : Env) (position_ticket? : Option Nat) : Option MT5Result :=
  match position_ticket? with
  | none => none
  | some ticket =>
    match close_position_request env ticket with
    | none => none
    | some request =>
      match env.order_send request with
      | none => none
      | some order_result =>
        if order_result.retcode ≠ TRADE_RETCODE_DONE then none
        else some order_result

/-- routes/position.py close_position_endpoint: the outer Option models the
position key being present in the body, the inner Option the ticket key being
present in the position dict. -/
def close_position_endpoint (env : Env) (data? : Option (Option Nat)) : HResp :=
  match data? with
  | none => .jsonError (validation_error_response "Position data is required" none env.request_id).1 400
  | some position_ticket? =>
    match close_position env position_ticket? with
    | none => .jsonError (validation_error_response "Failed to close position" none env.request_id).1 400
    | some result =>
      if result.retcode ≠ TRADE_RETCODE_DONE then
        let e := mt5_error_response "Close position" result env.last_error env.request_id
        .jsonError e.1 e.2
      else .success "Position closed successfully" result

/-- Inbound JSON body of the partial-close endpoint. -/
structure PartialCloseData where
  ticket? : Option Nat := none
  symbol? : Option String := none
  volume? : Option ℚ := none
  type? : Option Nat := none
  deviation? : Option Int := none
  magic? : Option Int := none
  comment? : Option String := none
deriving DecidableEq, Repr

/-- Rejection message of the partial-close endpoint when the requested volume
is not strictly below the open position volume. -/
def partialCloseTooBigMsg : String :=
  "Volume to close must be less than position volume. Use /close_position to close entire position."

/-- Validation-and-build phase of close_position_partial_endpoint
(routes/position.py): everything before mt5.order_send. -/
def close_position_partial_build (env : Env) (data? : Option PartialCloseData) :
    Except (Envelope × Nat) TradeRequest :=
  match data? with
  | none => .error (validation_error_response "Position data is required" none env.request_id)
  | some data =>
    match data.ticket?, data.symbol?, data.volume?, data.type? with
    | some ticket, some symbol, some volume, some position_type =>
      if volume ≤ 0 then
        .error (validation_error_response "Volume must be positive" none env.request_id)
      else if env.symbol_select symbol = false then
        .error (validation_error_response "Symbol not found or not selectable" none env.request_id)
      else
        match env.positions_get ticket with
        | none => .error (validation_error_response "Position not found" none env.request_id)
        | some [] => .error (validation_error_response "Position not found" none env.request_id)
        | some (position :: _) =>
          if volume ≥ position.volume then
            .error (validation_error_response partialCloseTooBigMsg none env.request_id)
          else
            match env.symbol_info_tick symbol with
            | none => .error (validation_error_response "Failed to get tick" none env.request_id)
            | some tick =>
              if position_type ≠ 0 ∧ position_type ≠ 1 then
                .error (validation_error_response "Invalid position type" none env.request_id)
              else
                let order_type := if position_type = 0 then ORDER_TYPE_SELL else ORDER_TYPE_BUY
                let price := if position_type = 0 then tick.bid else tick.ask
                let type_filling := get_symbol_filling_mode (env.symbol_info symbol)
                .ok
                  { action := TRADE_ACTION_DEAL
                    position? := some ticket
                    symbol? := some symbol
                    volume? := some volume
                    type? := some order_type
                    price? := some price
                    deviation? := some (data.deviation?.getD 20)
                    magic? := some (data.magic?.getD 0)
                    comment? := some (data.comment?.getD "Partial close")
                    type_time? := some ORDER_TIME_GTC
                    type_filling? := some type_filling }
    | _, _, _, _ =>
      .error (validation_error_response "Missing required fields" (some "ticket symbol volume type") env.request_id)

/-- routes/position.py close_position_partial_endpoint: build, submit,
classify. -/
def close_position_partial_endpoint (env : Env) (data? : Option PartialCloseData) : HResp :=
  match close_position_partial_build env data? with
  | .error e => .jsonError e.1 e.2
  | .ok req =>
    match env.order_send req with
    | none =>
      .jsonError (validation_error_response "Partial close failed - MT5 returned None" none env.request_id).1 400
    | some result =>
      if result.retcode ≠ TRADE_RETCODE_DONE then
        let e := mt5_error_response "Partial close position" result env.last_error env.request_id
        .jsonError e.1 e.2
      else .success "Position partially closed successfully" result

/-- The request_data dictionary built by cancel_order. -/
def cancel_request (ticket : Nat) : TradeRequest :=
  { action := TRADE_ACTION_REMOVE, order? := some ticket,
    type_time? := some ORDER_TIME_GTC, type_filling? := some ORDER_FILLING_RETURN }

/-- routes/order.py cancel_order: resolve the pending order, submit a Remove
action, classify. -/
def cancel_order (env : Env) (ticket : Nat) : HResp :=
  match env.orders_get ticket with
  | none =>
    .jsonError { error := "Failed to retrieve order information",
                 error_type? := some "connection_error" } 503
  | some [] =>
    .jsonError { error := "Order not found", error_type? := some "not_found" } 404
  | some (_ :: _) =>
    let req : TradeRequest := cancel_request ticket
    match env.order_send req with
    | none =>
      .jsonError (validation_error_response "Order cancellation failed - MT5 returned None" none env.request_id).1 400
    | some result =>
      if result.retcode ≠ TRADE_RETCODE_DONE then
        let e := mt5_error_response "Cancel order" result env.last_error env.request_id
        .jsonError e.1 e.2
      else .success "Order cancelled successfully" result

/-- Inbound JSON body of the pending-order modification endpoint. -/
structure ModifyData where
  price? : Option ℚ := none
  sl? : Option ℚ := none
  tp? : Option ℚ := none
deriving DecidableEq, Repr

/-- Validation-and-build phase of modify_order (routes/order.py): everything
before mt5.order_send. -/
def modify_order_build (env : Env) (ticket : Nat) (data? : Option ModifyData) :
    Except (Envelope × Nat) TradeRequest :=
  match data? with
  | none => .error (validation_error_response "Modification data is required" none env.request_id)
  | some data =>
    if data.price? = none ∧ data.sl? = none ∧ data.tp? = none then
      .error (validation_error_response "At least one of price, sl, or tp must be provided" none env.request_id)
    else
      match env.orders_get ticket with
      | none =>
        .error ({ error := "Failed to retrieve order information",
                  error_type? := some "connection_error" }, 503)
      | some [] =>
        .error ({ error := "Order not found", error_type? := some "not_found" }, 404)
      | some (order :: _) =>
        let new_price := data.price?.getD order.price_open
        let new_sl := data.sl?.getD order.sl
        let new_tp := data.tp?.getD order.tp
        if new_price ≤ 0 then
          .error (validation_error_response "Price must be positive" none env.request_id)
        else if new_sl < 0 then
          .error (validation_error_response "Stop loss must be non-negative" none env.request_id)
        else if new_tp < 0 then
          .error (validation_error_response "Take profit must be non-negative" none env.request_id)
        else
          let priceCheck : Except (Envelope × Nat) Unit :=
            if data.price?.isSome then
              match validate_pending_price order.type (env.symbol_info_tick order.symbol)
                  (env.symbol_info order.symbol) new_price with
              | (false, msg) => .error (validation_error_response (msg.getD "") none env.request_id)
              | (true, _) => .ok ()
            else .ok ()
          match priceCheck with
          | .error e => .error e
          | .ok _ =>
            let slTpCheck : Except (Envelope × Nat) Unit :=
              if 0 < new_sl ∨ 0 < new_tp then
                match validate_sl_tp order.type new_price
                    (if 0 < new_sl then some new_sl else none)
                    (if 0 < new_tp then some new_tp else none) with
                | (false, msg) => .error (validation_error_response (msg.getD "") none env.request_id)
                | (true, _) => .ok ()
              else .ok ()
            match slTpCheck with
            | .error e => .error e
            | .ok _ =>
              .ok { action := TRADE_ACTION_MODIFY, order? := some ticket,
                    price? := some new_price, sl? := some new_sl, tp? := some new_tp,
                    type_time? := some ORDER_TIME_GTC,
                    type_filling? := some ORDER_FILLING_RETURN }

/-- routes/order.py modify_order: build, submit, classify. -/
def modify_order (env : Env) (ticket : Nat) (data? : Option ModifyData) : HResp :=
  match modify_order_build env ticket data? with
  | .error e => .jsonError e.1 e.2
  | .ok req =>
    match env.order_send req with
    | none =>
      .jsonError (validation_error_response "Order modification failed - MT5 returned None" none env.request_id).1 400
    | some result =>
      if result.retcode ≠ TRADE_RETCODE_DONE then
        let e := mt5_error_response "Modify order" result env.last_error env.request_id
        .jsonError e.1 e.2
      else .success "Order modified successfully" result

/-! ## Concrete inputs used by witnesses and counterexamples -/

/-- Symbol constraints with a zero volume step (C10 witness). -/
def c10Sym : SymbolInfo :=
  { volume_min := 1/100, volume_max := 100, volume_step := 0, point := 1/10000,
    trade_freeze_level := 0, filling_mode := 2 }

/-- Symbol constraints with a positive volume step (C5 witness). -/
def c5Sym : SymbolInfo :=
  { volume_min := 1/100, volume_max := 100, volume_step := 1/100, point := 1/10000,
    trade_freeze_level := 0, filling_mode := 2 }


/-- Attempt oracle on which every login attempt fails (C4 witness). -/
def c4Outcomes : Nat → AttemptOutcome := fun _ => .failure "login failed"

/-- Initial connection state (C4 witness). -/
def c4State : ConnState := { status := .disconnected, last_error := none }


/-- Symbol whose filling bitmask has only bit 1 set, so the bitmask scan
yields FOK (C1 counterexample). -/
def c1Sym : SymbolInfo :=
  { volume_min := 1/100, volume_max := 100, volume_step := 1/100, point := 1/10000,
    trade_freeze_level := 0, filling_mode := 1 }

/-- Venue environment for the C1 counterexample. -/
def c1Env : Env :=
  { symbol_select := fun _ => true, symbol_info := fun _ => some c1Sym,
    symbol_info_tick := fun _ => some { bid := 1, ask := 1001/1000 },
    positions_get := fun _ => none, orders_get := fun _ => none,
    order_send := fun _ => none, last_error := (0, "") }

/-- Accepted pending BUY_LIMIT order request with no filling override
(C1 counterexample). -/
def c1Data : OrderData :=
  { symbol? := some "EURUSD", volume? := some (1/100), type? := some "BUY_LIMIT",
    price? := some (9/10) }


/-- Symbol constraints for the C2 counterexample. -/
def c2Sym : SymbolInfo :=
  { volume_min := 1/100, volume_max := 100, volume_step := 1/100, point := 1/10000,
    trade_freeze_level := 0, filling_mode := 2 }

/-- Live BUY position for the C2 counterexample. -/
def c2Pos : Position :=
  { ticket := 1, symbol := "EURUSD", volume := 1, type := 0, magic := 0 }

/-- Venue result whose return code 10018 is in the connection-fault set
(C2 counterexample). -/
def c2Res : MT5Result :=
  { retcode := 10018, comment := "Market closed", order := 0, deal := 0, price := 0 }

/-- Environment in which closing position 1 yields return code 10018
(C2 counterexample). -/
def c2Env : Env :=
  { symbol_select := fun _ => true, symbol_info := fun _ => some c2Sym,
    symbol_info_tick := fun _ => some { bid := 1, ask := 11/10 },
    positions_get := fun _ => some [c2Pos], orders_get := fun _ => none,
    order_send := fun _ => some c2Res, last_error := (1, "Success") }


/-- Live BUY position of volume 2 (C9 witness). -/
def c9Pos : Position :=
  { ticket := 7, symbol := "EURUSD", volume := 2, type := 0, magic := 0 }

/-- Successful venue result for the C9 witness. -/
def c9Res : MT5Result :=
  { retcode := 10009, comment := "done", order := 11, deal := 12, price := 1 }

/-- Environment for the C9 witness: position 7 open with volume 2, the venue
accepting the close deal. -/
def c9Env : Env :=
  { symbol_select := fun _ => true, symbol_info := fun _ => some c2Sym,
    symbol_info_tick := fun _ => some { bid := 1, ask := 11/10 },
    positions_get := fun _ => some [c9Pos], orders_get := fun _ => none,
    order_send := fun _ => some c9Res, last_error := (0, "") }

/-- Partial-close request for less than the open volume (C9 witness). -/
def c9DataSmall : PartialCloseData :=
  { ticket? := some 7, symbol? := some "EURUSD", volume? := some 1, type? := some 0 }

/-- Partial-close request for more than the open volume (C9 witness). -/
def c9DataBig : PartialCloseData :=
  { ticket? := some 7, symbol? := some "EURUSD", volume? := some 3, type? := some 0 }

/-! ## Theorems -/

/-- C10: for every symbol whose reported volume_step is zero or negative,
validate_volume never reaches the step-grid division and accepts exactly the
volumes within the min/max bounds. -/
theorem validate_volume_nonpositive_step (si : SymbolInfo) (v : ℚ)
    (h : si.volume_step ≤ 0) :
    (validate_volume (some si) v).1 = true ↔
      si.volume_min ≤ v ∧ v ≤ si.volume_max := by
  simp only [validate_volume]
  split_ifs with h1 h2 h3
  · simp only [Bool.false_eq_true, false_iff, not_and]
    intro hle
    exact absurd hle (not_le.mpr h1)
  · simp only [Bool.false_eq_true, false_iff, not_and]
    intro _
    exact not_le.mpr h2
  · exact absurd h3 (not_lt.mpr h)
  · exact absurd h3 (not_lt.mpr h)
  · exact iff_of_true rfl ⟨not_lt.mp h1, not_lt.mp h2⟩

/-- Witness for C10 at a symbol whose volume step is zero: a volume within the
bounds is accepted although it is on no step grid. -/
theorem validate_volume_nonpositive_step_witness :
    (validate_volume (some c10Sym) (37/1000)).1 = true :=
  (validate_volume_nonpositive_step c10Sym (37/1000)
    (by norm_num [c10Sym])).mpr (by norm_num [c10Sym])


/-- C8: validate_sl_tp accepts exactly when each supplied level is strictly
positive and on the correct side of the entry price for the order direction
(SL strictly below and TP strictly above entry for Buy-side order types,
reversed for Sell-side); it is a no-op when both levels are absent. -/
theorem validate_sl_tp_spec (order_type : Nat) (price : ℚ) (sl tp : Option ℚ) :
    (validate_sl_tp order_type price sl tp).1 = true ↔
      ((∀ s, sl = some s → 0 < s ∧
        ((order_type = ORDER_TYPE_BUY ∨ order_type = ORDER_TYPE_BUY_LIMIT ∨
            order_type = ORDER_TYPE_BUY_STOP) → s < price) ∧
        (¬(order_type = ORDER_TYPE_BUY ∨ order_type = ORDER_TYPE_BUY_LIMIT ∨
            order_type = ORDER_TYPE_BUY_STOP) → price < s)) ∧
       (∀ t, tp = some t → 0 < t ∧
        ((order_type = ORDER_TYPE_BUY ∨ order_type = ORDER_TYPE_BUY_LIMIT ∨
            order_type = ORDER_TYPE_BUY_STOP) → price < t) ∧
        (¬(order_type = ORDER_TYPE_BUY ∨ order_type = ORDER_TYPE_BUY_LIMIT ∨
            order_type = ORDER_TYPE_BUY_STOP) → t < price))) := by
  by_cases hb : order_type = ORDER_TYPE_BUY ∨ order_type = ORDER_TYPE_BUY_LIMIT ∨
      order_type = ORDER_TYPE_BUY_STOP <;>
    cases sl with
    | none =>
      cases tp with
      | none => simp [validate_sl_tp]
      | some t =>
        simp [validate_sl_tp, hb]
        split_ifs with h1 h2 <;>
          constructor <;> intro hx <;> try simp_all
        all_goals linarith
    | some s =>
      cases tp with
      | none =>
        simp [validate_sl_tp, hb]
        split_ifs with h1 h2 <;>
          constructor <;> intro hx <;> try simp_all
        all_goals linarith
      | some t =>
        simp [validate_sl_tp, hb]
        split_ifs with h1 h2 h3 h4 <;>
          constructor <;> intro hx <;> try simp_all
        all_goals linarith

/-- C6: for each pending order kind, validate_pending_price accepts exactly
when the price is at least the freeze-level distance (freeze_level_points
times point) away from the reference price (the ask for buy-side kinds, the
bid for sell-side) and on the correct side of the market: BuyLimit strictly
below the ask, SellLimit strictly above the bid, BuyStop strictly above the
ask, SellStop strictly below the bid. -/
theorem validate_pending_price_spec (si : SymbolInfo) (tick : Tick) (price : ℚ) :
    ((validate_pending_price ORDER_TYPE_BUY_LIMIT (some tick) (some si) price).1 = true ↔
      (si.trade_freeze_level * si.point ≤ |price - tick.ask| ∧ price < tick.ask)) ∧
    ((validate_pending_price ORDER_TYPE_SELL_LIMIT (some tick) (some si) price).1 = true ↔
      (si.trade_freeze_level * si.point ≤ |price - tick.bid| ∧ tick.bid < price)) ∧
    ((validate_pending_price ORDER_TYPE_BUY_STOP (some tick) (some si) price).1 = true ↔
      (si.trade_freeze_level * si.point ≤ |price - tick.ask| ∧ tick.ask < price)) ∧
    ((validate_pending_price ORDER_TYPE_SELL_STOP (some tick) (some si) price).1 = true ↔
      (si.trade_freeze_level * si.point ≤ |price - tick.bid| ∧ price < tick.bid)) := by
  have hbl : strContains "BUY_LIMIT" "BUY" = true := by decide
  have hsl : strContains "SELL_LIMIT" "BUY" = false := by decide
  have hbs : strContains "BUY_STOP" "BUY" = true := by decide
  have hss : strContains "SELL_STOP" "BUY" = false := by decide
  refine ⟨?_, ?_, ?_, ?_⟩ <;>
    simp only [validate_pending_price, ORDER_TYPE_TO_STRING, ORDER_TYPE_BUY,
      ORDER_TYPE_SELL, ORDER_TYPE_BUY_LIMIT, ORDER_TYPE_SELL_LIMIT,
      ORDER_TYPE_BUY_STOP, ORDER_TYPE_SELL_STOP, Option.getD_some, hbl, hsl, hbs, hss] <;>
    norm_num <;>
    split_ifs with h1 h2 <;>
    constructor <;> intro hx <;> try simp_all
  all_goals try linarith

/-- Rounding an exact integer returns it unchanged. -/
theorem pyRound_intCast (z : ℤ) : pyRound (z : ℚ) = z := by
  simp only [pyRound, Int.floor_intCast, sub_self]
  norm_num

/-- C5: with positive volume constraints, validate_volume rejects volumes out
of the min/max bounds; within bounds it accepts exactly when the volume is
within one percent of a step of the grid point selected by rounding
(volume - volume_min) / volume_step; hence every exact grid point within the
bounds is accepted and any in-range volume more than one percent of a step
away from every grid point is rejected. -/
theorem validate_volume_spec (si : SymbolInfo)
    (hmin : 0 < si.volume_min) (hmax : 0 < si.volume_max)
    (hstep : 0 < si.volume_step) :
    (∀ v : ℚ, (v < si.volume_min ∨ si.volume_max < v) →
      (validate_volume (some si) v).1 = false) ∧
    (∀ v : ℚ, si.volume_min ≤ v → v ≤ si.volume_max →
      ((validate_volume (some si) v).1 = true ↔
        |v - (si.volume_min + pyRound ((v - si.volume_min) / si.volume_step) *
          si.volume_step)| ≤ si.volume_step * (1/100))) ∧
    (∀ n : ℕ, si.volume_min + n * si.volume_step ≤ si.volume_max →
      (validate_volume (some si) (si.volume_min + n * si.volume_step)).1 = true) ∧
    (∀ v : ℚ, si.volume_min ≤ v → v ≤ si.volume_max →
      (∀ m : ℤ, si.volume_step * (1/100) < |v - (si.volume_min + m * si.volume_step)|) →
      (validate_volume (some si) v).1 = false) := by
  have hne : si.volume_step ≠ 0 := ne_of_gt hstep
  have hiff : ∀ v : ℚ, si.volume_min ≤ v → v ≤ si.volume_max →
      ((validate_volume (some si) v).1 = true ↔
        |v - (si.volume_min + pyRound ((v - si.volume_min) / si.volume_step) *
          si.volume_step)| ≤ si.volume_step * (1/100)) := by
    intro v h1 h2
    simp only [validate_volume]
    split_ifs with hA hB hC
    · exact absurd hA (not_lt.mpr h1)
    · exact absurd hB (not_lt.mpr h2)
    · exact iff_of_false (by simp) (not_le.mpr hC)
    · exact iff_of_true rfl (not_lt.mp hC)
  refine ⟨?_, hiff, ?_, ?_⟩
  · intro v hv
    by_cases h0 : v < si.volume_min
    · simp [validate_volume, h0]
    · rcases hv with h | h
      · exact absurd h h0
      · simp [validate_volume, h0, h]
  · intro n hn
    have h0 : (0:ℚ) ≤ (n:ℚ) * si.volume_step := by positivity
    have h1 : si.volume_min ≤ si.volume_min + (n:ℚ) * si.volume_step := by linarith
    have hdiv : ((si.volume_min + (n:ℚ) * si.volume_step) - si.volume_min) /
        si.volume_step = ((n:ℤ) : ℚ) := by
      rw [add_sub_cancel_left, mul_div_cancel_right₀ _ hne]
      simp
    apply (hiff _ h1 hn).mpr
    rw [hdiv, pyRound_intCast]
    push_cast
    simp
    positivity
  · intro v h1 h2 hall
    cases hb : (validate_volume (some si) v).1 with
    | false => rfl
    | true =>
      have hle := (hiff v h1 h2).mp hb
      have hgt := hall (pyRound ((v - si.volume_min) / si.volume_step))
      linarith

/-- Witness for C5 on a concrete symbol (min 0.01, max 100, step 0.01): the
grid point 0.06 is accepted and the off-grid volume 0.015 is rejected. -/
theorem validate_volume_spec_witness :
    (0 < c5Sym.volume_min ∧ 0 < c5Sym.volume_max ∧ 0 < c5Sym.volume_step) ∧
    (validate_volume (some c5Sym) (6/100)).1 = true ∧
    (validate_volume (some c5Sym) (3/200)).1 = false := by
  have h := validate_volume_spec c5Sym (by norm_num [c5Sym]) (by norm_num [c5Sym])
    (by norm_num [c5Sym])
  refine ⟨⟨by norm_num [c5Sym], by norm_num [c5Sym], by norm_num [c5Sym]⟩, ?_, ?_⟩
  · have hg := h.2.2.1 5 (by norm_num [c5Sym])
    have he : c5Sym.volume_min + (5:ℕ) * c5Sym.volume_step = 6/100 := by
      norm_num [c5Sym]
    rw [he] at hg
    exact hg
  · apply h.2.2.2 (3/200) (by norm_num [c5Sym]) (by norm_num [c5Sym])
    intro m
    have hstep : c5Sym.volume_step = 1/100 := by norm_num [c5Sym]
    have hmin : c5Sym.volume_min = 1/100 := by norm_num [c5Sym]
    rw [hstep, hmin]
    rcases le_or_lt m 0 with hm | hm
    · have hmq : (m:ℚ) ≤ 0 := by exact_mod_cast hm
      have hprod : (m:ℚ) * (1/100) ≤ 0 := by nlinarith
      rw [abs_of_nonneg (by linarith)]
      linarith
    · have hm1 : (1:ℤ) ≤ m := by omega
      have hmq : (1:ℚ) ≤ (m:ℚ) := by exact_mod_cast hm1
      have hprod : (1:ℚ)/100 ≤ (m:ℚ) * (1/100) := by nlinarith
      rw [abs_of_neg (by linarith)]
      linarith

/-- Invariant of the login loop: when every attempt fails, the loop started
after a given number of attempts returns failure, ends Disconnected with the
final diagnostic, sleeps once per non-final attempt with doubling delays, and
runs all remaining attempts. -/
theorem init_go_all_fail (maxA : Nat) (base : ℚ) (outcomes : Nat → AttemptOutcome)
    (hfail : ∀ k, outcomes k ≠ .success) :
    ∀ n attempt st, maxA = attempt + n → 1 ≤ n →
      init_go maxA base outcomes attempt st =
        { ok := false, state := ⟨.disconnected, some initFinalError⟩,
          sleeps := (List.range (n - 1)).map (fun i => base * 2 ^ (attempt + i)),
          attempts := n } := by
  intro n
  induction n with
  | zero => intro attempt st _ h1; omega
  | succ m ih =>
    intro attempt st heq _h1
    rw [init_go]
    have hlt : attempt < maxA := by omega
    rw [dif_pos hlt]
    cases hout : outcomes (attempt + 1) with
    | success => exact absurd hout (hfail _)
    | failure diag =>
      simp only [hout]
      by_cases hk : attempt + 1 < maxA
      · have hm : 1 ≤ m := by omega
        rw [if_pos hk, ih (attempt + 1) _ (by omega) hm]
        obtain ⟨p, rfl⟩ : ∃ p, m = p + 1 := ⟨m - 1, by omega⟩
        simp only [InitResult.mk.injEq, set_status, true_and, and_true]
        simp only [Nat.add_sub_cancel]
        rw [List.range_succ_eq_map, List.map_cons, List.map_map]
        congr 1
        apply List.map_congr_left
        intro i _
        simp only [Function.comp_apply]
        have he : attempt + 1 + i = attempt + Nat.succ i := by omega
        rw [he]
      · have hm : m = 0 := by omega
        subst hm
        rw [if_neg hk]
        simp [set_status]

/-- C4: when every login attempt fails, initialize performs maxAttempts
attempts, sleeps base_delay times 2 to the power (k-2) before each attempt
k greater than 1 (list index k-2), performs no sleep after the final attempt
(maxAttempts - 1 sleeps in total), and ends Disconnected with the final
diagnostic, returning failure. -/
theorem initialize_mt5_all_fail (maxAttempts : Nat) (base_delay : ℚ)
    (outcomes : Nat → AttemptOutcome) (st : ConnState)
    (hmax : 1 ≤ maxAttempts) (hfail : ∀ k, outcomes k ≠ .success) :
    (initialize_mt5 maxAttempts base_delay outcomes st).ok = false ∧
    (initialize_mt5 maxAttempts base_delay outcomes st).state =
      { status := .disconnected, last_error := some initFinalError } ∧
    (initialize_mt5 maxAttempts base_delay outcomes st).sleeps =
      (List.range (maxAttempts - 1)).map (fun i => base_delay * 2 ^ i) ∧
    (initialize_mt5 maxAttempts base_delay outcomes st).sleeps.length = maxAttempts - 1 ∧
    (initialize_mt5 maxAttempts base_delay outcomes st).attempts = maxAttempts := by
  have h := init_go_all_fail maxAttempts base_delay outcomes hfail maxAttempts 0 st
    (by omega) hmax
  refine ⟨?_, ?_, ?_, ?_, ?_⟩
  · rw [initialize_mt5, h]
  · rw [initialize_mt5, h]
  · rw [initialize_mt5, h]
    simp
  · rw [initialize_mt5, h]
    simp
  · rw [initialize_mt5, h]

/-- Witness for C4 at maxAttempts 3, base_delay 1: sleeps of 1s then 2s, then
failure after the third attempt with state Disconnected. -/
theorem initialize_mt5_all_fail_witness :
    (initialize_mt5 3 1 c4Outcomes c4State).ok = false ∧
    (initialize_mt5 3 1 c4Outcomes c4State).state =
      { status := .disconnected, last_error := some initFinalError } ∧
    (initialize_mt5 3 1 c4Outcomes c4State).sleeps = [1, 2] ∧
    (initialize_mt5 3 1 c4Outcomes c4State).attempts = 3 := by
  have h := initialize_mt5_all_fail 3 1 c4Outcomes c4State (by omega)
    (fun k hk => by simp [c4Outcomes] at hk)
  refine ⟨h.1, h.2.1, ?_, h.2.2.2.2⟩
  rw [h.2.2.1]
  have hr : List.range (3 - 1) = [0, 1] := by decide
  rw [hr]
  norm_num

/-- C7: when the state is Connected and the liveness probe returns data,
ensure_connection returns success with the state (status and last error)
unchanged and zero login attempts; when the probe returns empty or throws it
sets the state to Disconnected with a diagnostic and falls through to the
login loop; when the state is not Connected it calls the login loop
directly. -/
theorem ensure_connection_spec (maxA : Nat) (base : ℚ)
    (outcomes : Nat → AttemptOutcome) (st : ConnState) :
    (st.status = .connected →
      ensure_connection maxA base outcomes st .ok =
        { ok := true, state := st, init_called := false, init_attempts := 0,
          sleeps := [] }) ∧
    (st.status = .connected →
      ensure_connection maxA base outcomes st .empty =
        ofInit (initialize_mt5 maxA base outcomes
          (set_status .disconnected (some "Connection lost")))) ∧
    (∀ msg, st.status = .connected →
      ensure_connection maxA base outcomes st (.throws msg) =
        ofInit (initialize_mt5 maxA base outcomes
          (set_status .disconnected (some msg)))) ∧
    (∀ probe, st.status ≠ .connected →
      ensure_connection maxA base outcomes st probe =
        ofInit (initialize_mt5 maxA base outcomes st)) := by
  refine ⟨?_, ?_, ?_, ?_⟩
  · intro h
    simp [ensure_connection, h]
  · intro h
    simp [ensure_connection, h]
  · intro msg h
    simp [ensure_connection, h]
  · intro probe h
    cases probe <;> simp [ensure_connection, h]

/-- A successful pass through the SL/TP check step returns exactly the
request_data dictionary built by build_trade_request. -/
theorem send_order_finish_ok (env : Env) (data : OrderData) (symbol : String)
    (volume : ℚ) (order_type action : Nat) (price : ℚ) (req : TradeRequest)
    (h : send_order_finish env data symbol volume order_type action price = .ok req) :
    req = build_trade_request action symbol volume order_type price data := by
  unfold send_order_finish at h
  split_ifs at h
  · rcases hv : validate_sl_tp order_type price data.sl? data.tp? with ⟨b, msg⟩
    rw [hv] at h
    cases b
    · simp at h
    · simp only [Except.ok.injEq] at h
      exact h.symm
  · exact (Except.ok.inj h).symm

/-- C1 (amended): every trade request built by the order-creation endpoint
carries deviation defaulting to 20, magic defaulting to 0, the GTC time
policy, and a filling policy equal to the caller-supplied type_filling for
any order kind, defaulting to IOC when absent; get_symbol_filling_mode
implements the bitmask preference (IOC if the bit of value 2 is set, else
Return if the bit of value 4 is set, else FOK if the bit of value 1 is set,
else Return) but the creation pipeline does not consult it. -/
theorem send_order_build_defaults :
    (∀ env data req, send_order_build env (some data) = .ok req →
      req.deviation? = some (data.deviation?.getD 20) ∧
      req.magic? = some (data.magic?.getD 0) ∧
      req.type_time? = some ORDER_TIME_GTC ∧
      req.type_filling? = some (data.type_filling?.getD ORDER_FILLING_IOC)) ∧
    (∀ si : SymbolInfo,
      get_symbol_filling_mode (some si) =
        if si.filling_mode.testBit 1 then ORDER_FILLING_IOC
        else if si.filling_mode.testBit 2 then ORDER_FILLING_RETURN
        else if si.filling_mode.testBit 0 then ORDER_FILLING_FOK
        else ORDER_FILLING_RETURN) := by
  constructor
  · intro env data req h
    simp only [send_order_build] at h
    repeat' split at h
    all_goals try (exact absurd h (by simp))
    all_goals
      (have hb := send_order_finish_ok _ _ _ _ _ _ _ _ h
       subst hb
       simp [build_trade_request])
  · intro si
    have e1 : (si.filling_mode &&& 2 ≠ 0) ↔ si.filling_mode.testBit 1 := by
      rw [show (2:ℕ) = 2 ^ 1 by norm_num, Nat.and_two_pow]
      cases si.filling_mode.testBit 1 <;> simp
    have e2 : (si.filling_mode &&& 4 ≠ 0) ↔ si.filling_mode.testBit 2 := by
      rw [show (4:ℕ) = 2 ^ 2 by norm_num, Nat.and_two_pow]
      cases si.filling_mode.testBit 2 <;> simp
    have e3 : (si.filling_mode &&& 1 ≠ 0) ↔ si.filling_mode.testBit 0 := by
      rw [show (1:ℕ) = 2 ^ 0 by norm_num, Nat.and_two_pow]
      cases si.filling_mode.testBit 0 <;> simp
    simp only [get_symbol_filling_mode]
    rw [if_congr e1 rfl rfl, if_congr e2 rfl rfl, if_congr e3 rfl rfl]

set_option maxRecDepth 8000 in
/-- Counterexample to C1 as stated: an accepted pending BUY_LIMIT request on
a symbol whose bitmask selects FOK is built with filling mode IOC (the
default, not the selectFillingMode choice), and a caller-supplied filling
override on the same pending order is honoured. -/
theorem send_order_build_filling_cex :
    (send_order_build c1Env (some c1Data)).toOption.map (fun r => r.type_filling?) =
      some (some ORDER_FILLING_IOC) ∧
    get_symbol_filling_mode (c1Env.symbol_info "EURUSD") = ORDER_FILLING_FOK ∧
    ORDER_FILLING_IOC ≠ ORDER_FILLING_FOK ∧
    (send_order_build c1Env
        (some { c1Data with type_filling? := some ORDER_FILLING_RETURN })).toOption.map
      (fun r => r.type_filling?) = some (some ORDER_FILLING_RETURN) := by
  with_unfolding_all decide

/-- C2 (amended): mt5_error_response classifies a non-success venue result as
a 503 connection_error exactly when the last diagnostic code is in
{10004, 10005, 10006} or the return code is in {10018, 10019, 10020}, and as
a 400 mt5_rejected otherwise; the send, modify, cancel and partial-close
endpoints route every non-success result through this classifier, but the
full close-position endpoint does not: lib.close_position collapses any
non-success result to None, so that endpoint answers 400 validation_error
instead. -/
theorem mt5_write_classification :
    (∀ (op : String) (result : MT5Result) (le : Int × String) (rid : Option String),
      ((le.1 ∈ ([10004, 10005, 10006] : List Int) ∨
          result.retcode ∈ ([10018, 10019, 10020] : List Nat)) →
        (mt5_error_response op result le rid).2 = 503 ∧
        (mt5_error_response op result le rid).1.error_type? = some "connection_error") ∧
      (¬(le.1 ∈ ([10004, 10005, 10006] : List Int) ∨
          result.retcode ∈ ([10018, 10019, 10020] : List Nat)) →
        (mt5_error_response op result le rid).2 = 400 ∧
        (mt5_error_response op result le rid).1.error_type? = some "mt5_rejected")) ∧
    (∀ env data? req result, send_order_build env data? = .ok req →
      env.order_send req = some result → result.retcode ≠ TRADE_RETCODE_DONE →
      send_market_order_endpoint env data? =
        .jsonError (mt5_error_response "Send order" result env.last_error env.request_id).1
          (mt5_error_response "Send order" result env.last_error env.request_id).2) ∧
    (∀ env ticket data? req result, modify_order_build env ticket data? = .ok req →
      env.order_send req = some result → result.retcode ≠ TRADE_RETCODE_DONE →
      modify_order env ticket data? =
        .jsonError (mt5_error_response "Modify order" result env.last_error env.request_id).1
          (mt5_error_response "Modify order" result env.last_error env.request_id).2) ∧
    (∀ env ticket o os result, env.orders_get ticket = some (o :: os) →
      env.order_send (cancel_request ticket) = some result →
      result.retcode ≠ TRADE_RETCODE_DONE →
      cancel_order env ticket =
        .jsonError (mt5_error_response "Cancel order" result env.last_error env.request_id).1
          (mt5_error_response "Cancel order" result env.last_error env.request_id).2) ∧
    (∀ env data? req result, close_position_partial_build env data? = .ok req →
      env.order_send req = some result → result.retcode ≠ TRADE_RETCODE_DONE →
      close_position_partial_endpoint env data? =
        .jsonError
          (mt5_error_response "Partial close position" result env.last_error env.request_id).1
          (mt5_error_response "Partial close position" result env.last_error env.request_id).2) ∧
    (∀ env ticket req result, close_position_request env ticket = some req →
      env.order_send req = some result → result.retcode ≠ TRADE_RETCODE_DONE →
      close_position_endpoint env (some (some ticket)) =
        .jsonError (validation_error_response "Failed to close position" none
          env.request_id).1 400) := by
  refine ⟨?_, ?_, ?_, ?_, ?_, ?_⟩
  · intro op result le rid
    constructor <;> intro hc <;>
      simp only [List.mem_cons, List.not_mem_nil, or_false] at hc <;>
      simp [mt5_error_response, hc]
  · intro env data? req result h1 h2 h3
    simp [send_market_order_endpoint, h1, h2, h3]
  · intro env ticket data? req result h1 h2 h3
    simp [modify_order, h1, h2, h3]
  · intro env ticket o os result h1 h2 h3
    simp [cancel_order, h1, h2, h3]
  · intro env data? req result h1 h2 h3
    simp [close_position_partial_endpoint, h1, h2, h3]
  · intro env ticket req result h1 h2 h3
    simp [close_position_endpoint, close_position, h1, h2, h3]

set_option maxRecDepth 8000 in
/-- Counterexample to C2 as stated: closing a live position when the venue
answers return code 10018 (in the connection set) yields a 400
validation_error response, while the uniform classifier required by the
claim would yield 503 connection_error. -/
theorem close_position_endpoint_unclassified_cex :
    close_position_endpoint c2Env (some (some 1)) =
      .jsonError { error := "Failed to close position",
                   error_type? := some "validation_error" } 400 ∧
    c2Res.retcode ∈ ([10018, 10019, 10020] : List Nat) ∧
    (mt5_error_response "Close position" c2Res c2Env.last_error c2Env.request_id).2 = 503 ∧
    (mt5_error_response "Close position" c2Res c2Env.last_error
      c2Env.request_id).1.error_type? = some "connection_error" := by
  with_unfolding_all decide

/-- C3 (amended): the validation, not-found and venue-rejection builders
produce envelopes whose error_type is validation_error, not_found, and
connection_error or mt5_rejected respectively (all inside the documented
set), with their documented status codes; but the internal-error (500)
envelope and the connection-unavailable (503) envelope built by the
require_mt5_connection decorator carry no error_type field at all. -/
theorem error_envelope_shapes :
    (∀ (m : String) (d rid : Option String),
      (validation_error_response m d rid).1.error = m ∧
      (validation_error_response m d rid).1.error_type? = some "validation_error" ∧
      (validation_error_response m d rid).2 = 400) ∧
    (∀ (r : String) (idf rid : Option String),
      (not_found_response r idf rid).1.error_type? = some "not_found" ∧
      (not_found_response r idf rid).2 = 404) ∧
    (∀ (op : String) (result : MT5Result) (le : Int × String) (rid : Option String),
      (mt5_error_response op result le rid).1.error_type? = some "connection_error" ∨
      (mt5_error_response op result le rid).1.error_type? = some "mt5_rejected") ∧
    (∀ (op exc : String) (rid : Option String),
      (internal_error_response op exc rid).1.error_type? = none ∧
      (internal_error_response op exc rid).2 = 500) ∧
    (∀ (le : Option String) (st : ConnectionStatus) (rid : Option String),
      (require_mt5_connection_response le st rid).1.error_type? = none ∧
      (require_mt5_connection_response le st rid).2 = 503) := by
  refine ⟨?_, ?_, ?_, ?_, ?_⟩
  · intro m d rid
    exact ⟨rfl, rfl, rfl⟩
  · intro r idf rid
    exact ⟨rfl, rfl⟩
  · intro op result le rid
    simp only [mt5_error_response]
    split_ifs <;> simp
  · intro op exc rid
    exact ⟨rfl, rfl⟩
  · intro le st rid
    exact ⟨rfl, rfl⟩

/-- Counterexample to C3 as stated: the 500 internal-error envelope and the
503 connection-unavailable envelope carry no error_type field. -/
theorem error_envelope_missing_type_cex :
    (internal_error_response "send_order" "boom" none).1.error_type? = none ∧
    (internal_error_response "send_order" "boom" none).2 = 500 ∧
    (require_mt5_connection_response (some "Connection lost")
      ConnectionStatus.disconnected none).1.error_type? = none ∧
    (require_mt5_connection_response (some "Connection lost")
      ConnectionStatus.disconnected none).2 = 503 :=
  ⟨rfl, rfl, rfl, rfl⟩

/-- C9: a partial-close request whose volume is at least the live position's
open volume is answered with the 400 validation error directing the caller to
the full-close endpoint, with no order submission (the response does not
depend on order_send); a request for strictly less volume builds an
opposite-direction Deal at the current price on the position's closing side
(bid for a BUY position, ask for a SELL position) for exactly the requested
volume, and reports the venue result on success. -/
theorem close_position_partial_spec (env : Env) (data : PartialCloseData)
    (ticket : Nat) (symbol : String) (volume : ℚ) (ptype : Nat)
    (position : Position) (rest : List Position) (tick : Tick)
    (hticket : data.ticket? = some ticket) (hsymbol : data.symbol? = some symbol)
    (hvolume : data.volume? = some volume) (htype : data.type? = some ptype)
    (hvpos : 0 < volume) (hsel : env.symbol_select symbol = true)
    (hget : env.positions_get ticket = some (position :: rest))
    (hptype : ptype = position.type)
    (hdir : position.type = 0 ∨ position.type = 1) :
    (position.volume ≤ volume →
      close_position_partial_endpoint env (some data) =
        .jsonError (validation_error_response partialCloseTooBigMsg none
          env.request_id).1 400) ∧
    (volume < position.volume → env.symbol_info_tick symbol = some tick →
      ∃ req, close_position_partial_build env (some data) = .ok req ∧
        req.action = TRADE_ACTION_DEAL ∧
        req.type? = some (if position.type = 0 then ORDER_TYPE_SELL else ORDER_TYPE_BUY) ∧
        req.price? = some (if position.type = 0 then tick.bid else tick.ask) ∧
        req.volume? = some volume ∧
        req.position? = some ticket ∧
        req.type_filling? = some (get_symbol_filling_mode (env.symbol_info symbol)) ∧
        ∀ result, env.order_send req = some result →
          result.retcode = TRADE_RETCODE_DONE →
          close_position_partial_endpoint env (some data) =
            .success "Position partially closed successfully" result) := by
  constructor
  · intro hbig
    simp [close_position_partial_endpoint, close_position_partial_build, hticket,
      hsymbol, hvolume, htype, hget, hsel, not_le.mpr hvpos, hbig]
    rfl
  · intro hsmall htick
    subst hptype
    have hnotbig : ¬ volume ≥ position.volume := not_le.mpr hsmall
    rcases hdir with h0 | h1
    · have hbuild : close_position_partial_build env (some data) = .ok
          { action := TRADE_ACTION_DEAL, position? := some ticket,
            symbol? := some symbol, volume? := some volume,
            type? := some ORDER_TYPE_SELL, price? := some tick.bid,
            deviation? := some (data.deviation?.getD 20),
            magic? := some (data.magic?.getD 0),
            comment? := some (data.comment?.getD "Partial close"),
            type_time? := some ORDER_TIME_GTC,
            type_filling? := some (get_symbol_filling_mode (env.symbol_info symbol)) } := by
        simp [close_position_partial_build, hticket, hsymbol, hvolume, htype, hget,
          hsel, not_le.mpr hvpos, hnotbig, htick, h0]
      refine ⟨_, hbuild, rfl, by simp [h0], by simp [h0], rfl, rfl, rfl, ?_⟩
      intro result hsend hdone
      simp [close_position_partial_endpoint, hbuild, hsend, hdone]
    · have hbuild : close_position_partial_build env (some data) = .ok
          { action := TRADE_ACTION_DEAL, position? := some ticket,
            symbol? := some symbol, volume? := some volume,
            type? := some ORDER_TYPE_BUY, price? := some tick.ask,
            deviation? := some (data.deviation?.getD 20),
            magic? := some (data.magic?.getD 0),
            comment? := some (data.comment?.getD "Partial close"),
            type_time? := some ORDER_TIME_GTC,
            type_filling? := some (get_symbol_filling_mode (env.symbol_info symbol)) } := by
        simp [close_position_partial_build, hticket, hsymbol, hvolume, htype, hget,
          hsel, not_le.mpr hvpos, hnotbig, htick, h1]
      refine ⟨_, hbuild, rfl, by simp [h1], by simp [h1], rfl, rfl, rfl, ?_⟩
      intro result hsend hdone
      simp [close_position_partial_endpoint, hbuild, hsend, hdone]

/-- Witness for C9: volume 3 against an open volume of 2 is rejected with the
full-close message; volume 1 is submitted and succeeds. -/
theorem close_position_partial_spec_witness :
    close_position_partial_endpoint c9Env (some c9DataBig) =
      .jsonError (validation_error_response partialCloseTooBigMsg none none).1 400 ∧
    close_position_partial_endpoint c9Env (some c9DataSmall) =
      .success "Position partially closed successfully" c9Res := by
  constructor
  · exact (close_position_partial_spec c9Env c9DataBig 7 "EURUSD" 3 0 c9Pos []
      { bid := 1, ask := 11/10 } rfl rfl rfl rfl (by norm_num) rfl rfl rfl
      (Or.inl rfl)).1 (by norm_num [c9Pos])
  · obtain ⟨req, hbuild, _, _, _, _, _, _, hfin⟩ :=
      (close_position_partial_spec c9Env c9DataSmall 7 "EURUSD" 1 0 c9Pos []
        { bid := 1, ask := 11/10 } rfl rfl rfl rfl (by norm_num) rfl rfl rfl
        (Or.inl rfl)).2 (by norm_num [c9Pos]) rfl
    exact hfin c9Res rfl rfl
